import Mathlib

/-!
Shallow embedding of the PRTG device-management module
(plugins/modules/prtg.py) and proofs about its reconciliation logic.

The module resolves a device (by explicit id or by name/host scan over the
device listing), then compares desired state (present/absent, enabled) with
the observed state and issues the minimal set of mutating API calls
(duplicateobject, pause.htm, deleteobject), reporting a changed flag.

Remote interaction is modelled by an `Env` record holding, for each endpoint
the script may hit, the HTTP status the server would answer and the parsed
body the script would read.  Python-level control flow (fail_json, unhandled
exceptions such as NameError/IndexError/KeyError) is modelled by the
`Failure` type; dynamic typing of the `device_id` local variable is modelled
by `PyVal`.
-/

namespace Prtg

/-- A device record as parsed from the table.json listing
(columns objid,device,host,group,active). -/
structure Device where
  objid : Nat
  device : String
  host : String
  active_raw : Int
deriving DecidableEq, Repr

/-- The `state` module parameter. -/
inductive PState
  | present
  | absent
deriving DecidableEq, Repr

/-- Module parameters relevant to the reconciliation logic, plus the
check-mode flag supplied by the harness. -/
structure Config where
  device_id : Option Nat
  device_name : Option String
  state : PState
  enabled : Bool
  clone_from : Option Nat
  dest_group : Option Nat
  check_mode : Bool
deriving DecidableEq, Repr

/-- Unhandled Python exceptions the script can raise. -/
inductive PyExc
  | nameError
  | indexError
  | keyError
deriving DecidableEq, Repr

/-- Terminal failure of one invocation: a controlled module.fail_json with a
message, or an unhandled Python exception. -/
inductive Failure
  | failJson (msg : String)
  | exc (e : PyExc)
deriving DecidableEq, Repr

deriving instance DecidableEq for Except

/-- The API endpoints the script calls, with the request parameters that
vary per call (credentials are appended to every call and carry no logic). -/
inductive ApiCall
  | tableAll
  | tableById (objid : String)
  | getGroup (id : String)
  | duplicate (id name host targetid : String)
  | pause (id pausemsg : String) (action : Nat)
  | deleteObj (id approve : String)
deriving DecidableEq, Repr

/-- Whether an API call mutates remote state (duplicateobject, pause.htm,
deleteobject); table.json and getobjectstatus.htm are reads. -/
def ApiCall.mutating : ApiCall → Bool
  | .duplicate _ _ _ _ => true
  | .pause _ _ _ => true
  | .deleteObj _ _ => true
  | _ => false

/-- The mutating calls among a call trace. -/
def mutCalls (cs : List ApiCall) : List ApiCall :=
  cs.filter ApiCall.mutating

/-- A parsed XML element (xml.etree.ElementTree.Element): tag, attribute
dictionary (first-match association list), child elements. -/
inductive Xml
  | elem (tag : String) (attrib : List (String × String)) (children : List Xml)

def Xml.tag : Xml → String
  | .elem t _ _ => t

def Xml.attrib : Xml → List (String × String)
  | .elem _ a _ => a

def Xml.children : Xml → List Xml
  | .elem _ _ c => c

/-- The remote system's answer to each endpoint the script may call:
HTTP status (none = no status received) and already-parsed body. -/
structure Env where
  tableStatus : Option Int
  tableDevices : List Device
  tableByIdStatus : Option Int
  tableByIdDevices : List Device
  groupStatus : Option Int
  groupXml : Xml
  dupStatus : Option Int
  dupUrl : String
  pauseStatus : Option Int
  deleteStatus : Option Int

/-- A Python value held by the script's `device_id` local variable, which is
dynamically typed: None, the parameter string, or an int objid assigned from
a listing record. -/
inductive PyVal
  | noneV
  | str (s : String)
  | int (n : Nat)
deriving DecidableEq, Repr

/-- Python truthiness of a `PyVal` (None and 0 and "" are falsy). -/
def PyVal.truthy : PyVal → Bool
  | .noneV => false
  | .str s => !s.isEmpty
  | .int n => n != 0

/-- How urlencode renders the value as a request parameter. -/
def PyVal.toParamString : PyVal → String
  | .noneV => "None"
  | .str s => s
  | .int n => toString n

/-- validate_response: maps the response status to either a fatal fail_json
(401, 404, 400, and falsy status) or a returned code (200, 302, or the
fallthrough 0).  It looks only at the status, never at the body. -/
def validate_response (status : Option Int) : Except Failure Int :=
  match status with
  | none => .error (.failJson "Unable to reach API server")
  | some 0 => .error (.failJson "Unable to reach API server")
  | some 401 => .error (.failJson "Invalid API credentials")
  | some 404 => .error (.failJson "Invalid API URL")
  | some 400 => .error (.failJson "The API call could not be completed successfully")
  | some 200 => .ok 200
  | some 302 => .ok 302
  | some _ => .ok 0

/-- The call-site pattern `if(validate_response(module, info) != 200):
module.fail_json(msg=failMsg)` shared by every API call in the script. -/
def requireOk200 (status : Option Int) (failMsg : String) : Except Failure Unit :=
  match validate_response status with
  | .error e => .error e
  | .ok v => if v != 200 then .error (.failJson failMsg) else .ok ()

/-- Python str.lower (ASCII case folding, as used on device names/hosts). -/
def pyLower (s : String) : String :=
  String.mk (s.data.map Char.toLower)

/-- Python substring membership `needle in haystack` on strings. -/
def pyInAux (p : List Char) : List Char → Bool
  | [] => p.isEmpty
  | c :: rest => p.isPrefixOf (c :: rest) || pyInAux p rest

def pyIn (needle haystack : String) : Bool :=
  pyInAux needle.data haystack.data

/-- The name-lookup loop of main: scan the listing in order; for each device
first test case-insensitive name substring, then case-insensitive exact host
equality; break on the first hit. -/
def findDevice (devices : List Device) (name : String) : Option Device :=
  match devices with
  | [] => none
  | d :: rest =>
    if pyIn (pyLower name) (pyLower d.device) then some d
    else if pyLower name == pyLower d.host then some d
    else findDevice rest name

/-- Spec-side characterisation of one device matching the lookup target. -/
def matchesTarget (name : String) (d : Device) : Bool :=
  pyIn (pyLower name) (pyLower d.device) || pyLower name == pyLower d.host

/-- The digits right after a position in the URL. -/
def leadingDigits (cs : List Char) : List Char :=
  cs.takeWhile Char.isDigit

/-- re.search of the pattern id%3D([0-9]+): leftmost occurrence of the
marker followed by at least one digit; capture the maximal digit run. -/
def extractIdAux : List Char → Option String
  | [] => none
  | c :: rest =>
    if ("id%3D".data).isPrefixOf (c :: rest) then
      let ds := leadingDigits ((c :: rest).drop 5)
      if ds.isEmpty then extractIdAux rest else some (String.mk ds)
    else extractIdAux rest

/-- The new-device-id extraction from the URL returned by duplicateobject. -/
def extractId (url : String) : Option String :=
  extractIdAux url.data

/-- pause_device: one pause.htm call with a fixed message; action 0 pauses,
action 1 unpauses; any non-200 outcome is fatal with its own message. -/
def pause_device (pauseStatus : Option Int) (device_id : String) (paused : Bool) :
    List ApiCall × Except Failure Bool :=
  ([.pause device_id "paused by ansible" (if paused then 0 else 1)],
   match requireOk200 pauseStatus "Failed to pause device" with
   | .error e => .error e
   | .ok _ => .ok true)

/-- The resolution phase of main: returns the calls it made, and on success
the pair of the script's `device_id` and `dev` variables after the phase.
When the parameter device_id is falsy, the full listing is scanned by
name/host; otherwise the listing filtered by that id is fetched, and the
script then evaluates `dev['objid']` although the loop variable `dev` was
never bound on this path (NameError); on an empty filtered list it leaves
`device_id` holding the still-truthy parameter string and `dev` unbound. -/
def resolvePhase (cfg : Config) (env : Env) :
    List ApiCall × Except Failure (PyVal × Option Device) :=
  match cfg.device_id with
  | none =>
    ([.tableAll],
     match requireOk200 env.tableStatus "API request failed" with
     | .error e => .error e
     | .ok _ =>
       match cfg.device_name with
       | none => .error (.exc .nameError)
       | some name =>
         match findDevice env.tableDevices name with
         | some d => .ok (.int d.objid, some d)
         | none => .ok (.noneV, none))
  | some did =>
    ([.tableById (toString did)],
     match requireOk200 env.tableByIdStatus "API request failed" with
     | .error e => .error e
     | .ok _ =>
       if env.tableByIdDevices.isEmpty then .ok (.str (toString did), none)
       else .error (.exc .nameError))

/-- The parent-group extraction from the getobjectstatus.htm XML:
group_result[1] (IndexError when missing), the tag guard, then
group_result[1][0].attrib['thisid'] (IndexError/KeyError when missing). -/
def parentGroupExtract (xml : Xml) : Except Failure String :=
  match xml.children[1]? with
  | none => .error (.exc .indexError)
  | some c =>
    if c.tag == "result" then
      match c.children[0]? with
      | none => .error (.exc .indexError)
      | some cc =>
        match cc.attrib.lookup "thisid" with
        | none => .error (.exc .keyError)
        | some v => .ok v
    else .error (.failJson "Unable to find parent group of clone_from")

/-- Destination-group resolution in the create path: use dest_group when
given, else call getobjectstatus.htm on the clone source and read the
group id out of the XML. -/
def destGroupResolve (cloneFrom : Nat) (destGroup : Option Nat) (env : Env) :
    List ApiCall × Except Failure String :=
  match destGroup with
  | some g => ([], .ok (toString g))
  | none =>
    ([.getGroup (toString cloneFrom)],
     match requireOk200 env.groupStatus "API request failed" with
     | .error e => .error e
     | .ok _ => parentGroupExtract env.groupXml)

/-- The non-check-mode body of the create branch: resolve the destination
group, duplicate the clone source under it named/hosted as device_name,
parse the new device id out of the returned URL, and unpause it when
enabled is true. -/
def createPath (cfg : Config) (env : Env) (cloneFrom : Nat) :
    List ApiCall × Except Failure Bool :=
  let gout := destGroupResolve cloneFrom cfg.dest_group env
  match gout.2 with
  | .error e => (gout.1, .error e)
  | .ok dg =>
    let nm := cfg.device_name.getD ""
    let calls1 := gout.1 ++ [.duplicate (toString cloneFrom) nm nm dg]
    match requireOk200 env.dupStatus "API request failed" with
    | .error e => (calls1, .error e)
    | .ok _ =>
      match extractId env.dupUrl with
      | none => (calls1, .error (.failJson "Unable to parse new device ID from return request"))
      | some nid =>
        if cfg.enabled then
          let pout := pause_device env.pauseStatus nid false
          (calls1 ++ pout.1,
           match pout.2 with
           | .error e => .error e
           | .ok _ => .ok true)
        else (calls1, .ok true)

/-- The case analysis of main over desired state and the resolution result
(lines 212 to 296): create when present and device_id falsy, converge the
pause state when present and device_id truthy, delete when absent and
device_id truthy, else do nothing; mutating steps are skipped in check mode
while the changed flag is still computed. -/
def reconcilePhase (cfg : Config) (env : Env) (device_id : PyVal) (dev : Option Device) :
    List ApiCall × Except Failure Bool :=
  if cfg.state = .present ∧ device_id.truthy = false then
    match cfg.clone_from with
    | none => ([], .error (.failJson "Unable to create new device because: clone_from parameter not specified"))
    | some c => if cfg.check_mode then ([], .ok true) else createPath cfg env c
  else if cfg.state = .present ∧ device_id.truthy = true then
    match dev with
    | none => ([], .error (.exc .nameError))
    | some d =>
      if cfg.enabled = true ∧ d.active_raw = 0 then
        if cfg.check_mode then ([], .ok true)
        else pause_device env.pauseStatus device_id.toParamString false
      else if cfg.enabled = false ∧ d.active_raw = -1 then
        if cfg.check_mode then ([], .ok true)
        else pause_device env.pauseStatus device_id.toParamString true
      else ([], .ok false)
  else if cfg.state = .absent ∧ device_id.truthy = true then
    if cfg.check_mode then ([], .ok true)
    else
      ([.deleteObj device_id.toParamString "1"],
       match requireOk200 env.deleteStatus "Failed to delete device" with
       | .error e => .error e
       | .ok _ => .ok true)
  else ([], .ok false)

/-- The same configuration with the harness check-mode flag replaced. -/
def setCheck (cfg : Config) (b : Bool) : Config :=
  ⟨cfg.device_id, cfg.device_name, cfg.state, cfg.enabled,
   cfg.clone_from, cfg.dest_group, b⟩

/-- One whole invocation of main against the given remote answers: the calls
it issues in order, and either the exit_json changed flag or the failure. -/
def runMain (cfg : Config) (env : Env) : List ApiCall × Except Failure Bool :=
  let rout := resolvePhase cfg env
  match rout.2 with
  | .error e => (rout.1, .error e)
  | .ok dd =>
    let cout := reconcilePhase cfg env dd.1 dd.2
    (rout.1 ++ cout.1, cout.2)

/-- Effect of one mutating call on the remote listing: duplicateobject
creates the clone (named and hosted as requested, initially paused) under
the id the server chose; pause.htm sets the active flag of the addressed
device; deleteobject removes it.  Reads leave the listing unchanged. -/
def applyCall (newId : Nat) (listing : List Device) : ApiCall → List Device
  | .duplicate _ nm hs _ => listing ++ [⟨newId, nm, hs, 0⟩]
  | .pause idStr _ action =>
    listing.map fun d =>
      if toString d.objid == idStr then
        ⟨d.objid, d.device, d.host, if action == 1 then -1 else 0⟩
      else d
  | .deleteObj idStr _ => listing.filter fun d => !(toString d.objid == idStr)
  | _ => listing

/-- A healthy remote for the two-run experiment: every endpoint answers 200,
the listing is as given, and duplicateobject redirects to a URL carrying the
id the server assigned to the new device. -/
def stepEnv (listing : List Device) (newId : Nat) : Env :=
  ⟨some 200, listing, some 200, [], some 200, .elem "prtg" [] [], some 200,
   "https://prtg.example.com/device.htm?id%3D" ++ toString newId ++ "&tabid=1",
   some 200, some 200⟩

/-- Run the module once against a healthy remote holding `listing`, and
apply the mutating calls it issued to obtain the next remote state. -/
def runStep (cfg : Config) (newId : Nat) (listing : List Device) :
    Except Failure (Bool × List Device) :=
  let out := runMain cfg (stepEnv listing newId)
  match out.2 with
  | .error e => .error e
  | .ok c => .ok (c, out.1.foldl (applyCall newId) listing)

/-- The three observed shapes of the remote before the first run: the target
device absent, present and active, or present and paused. -/
inductive ObsCase
  | missing
  | activeDev
  | pausedDev
deriving DecidableEq, Repr

/-- The remote listing realising each observed shape for the target. -/
def initListing : ObsCase → List Device
  | .missing => []
  | .activeDev => [⟨1001, "web01", "10.0.0.5", -1⟩]
  | .pausedDev => [⟨1001, "web01", "10.0.0.5", 0⟩]

/-- The changed flag the transition table of the spec assigns to the first
run in each desired/observed combination. -/
def tableFirstChanged : PState → Bool → ObsCase → Bool
  | .present, _, .missing => true
  | .present, true, .pausedDev => true
  | .present, true, .activeDev => false
  | .present, false, .activeDev => true
  | .present, false, .pausedDev => false
  | .absent, _, .missing => false
  | .absent, _, .activeDev => true
  | .absent, _, .pausedDev => true

/-- The desired configuration used in the two-run experiment. -/
def twoRunCfg (s : PState) (e : Bool) : Config :=
  ⟨none, some "web01", s, e, some 1234, some 5678, false⟩

/-- Both runs of the experiment: the changed flags of run one and run two. -/
def twoRunChanged (s : PState) (e : Bool) (obs : ObsCase) :
    Except Failure (Bool × Bool) :=
  match runStep (twoRunCfg s e) 4321 (initListing obs) with
  | .error er => .error er
  | .ok fst =>
    match runStep (twoRunCfg s e) 4321 fst.2 with
    | .error er => .error er
    | .ok snd => .ok (fst.1, snd.1)

/-! ## Theorems -/

/-- The name-lookup loop is the first-match scan over the disjunction of the
two per-device predicates. -/
theorem findDevice_eq_find (devices : List Device) (name : String) :
    findDevice devices name = devices.find? (matchesTarget name) := by
  induction devices with
  | nil => rfl
  | cons d rest ih =>
    by_cases h1 : pyIn (pyLower name) (pyLower d.device) = true
    · simp [findDevice, h1, List.find?, matchesTarget]
    · by_cases h2 : (pyLower name == pyLower d.host) = true
      · simp [findDevice, h1, h2, List.find?, matchesTarget]
      · simp [findDevice, h1, h2, List.find?, matchesTarget, ih]

/-- C3: name-based resolution returns the first device in listing order
whose name contains the target as a case-insensitive substring or whose
host equals the target case-insensitively as a full match; with no match
the result is none.  In particular, for the listing
[(Web01, 10.0.0.5)], target web matches, target 10.0.0.5 matches by host,
and target 10.0.0 does not match. -/
theorem resolver_matching :
    (∀ (devices : List Device) (name : String),
      findDevice devices name = devices.find? (matchesTarget name)) ∧
    (∀ (devices : List Device) (name : String),
      (∀ d ∈ devices, matchesTarget name d = false) →
      findDevice devices name = none) ∧
    findDevice [⟨1, "Web01", "10.0.0.5", -1⟩] "web"
      = some ⟨1, "Web01", "10.0.0.5", -1⟩ ∧
    findDevice [⟨1, "Web01", "10.0.0.5", -1⟩] "10.0.0.5"
      = some ⟨1, "Web01", "10.0.0.5", -1⟩ ∧
    findDevice [⟨1, "Web01", "10.0.0.5", -1⟩] "10.0.0" = none := by
  refine ⟨findDevice_eq_find, ?_, by decide, by decide, by decide⟩
  intro devices name h
  rw [findDevice_eq_find]
  apply List.find?_eq_none.2
  intro x hx
  simp [h x hx]

/-- Witness for the hypothesis-bearing conjunct of resolver_matching. -/
theorem resolver_matching_witness :
    findDevice [⟨1, "Web01", "10.0.0.5", -1⟩] "zzz" = none :=
  resolver_matching.2.1 [⟨1, "Web01", "10.0.0.5", -1⟩] "zzz" (by decide)

/-- C5: validate_response fails the run with the authentication message on
status 401, the endpoint message on 404, the malformed-request message on
400, and the unreachable message with no status; and in the pipeline any
such status short-circuits the run before the parsed body (quantified over
every environment, hence independent of every body field). -/
theorem status_error_mapping :
    validate_response (some 401) = .error (.failJson "Invalid API credentials") ∧
    validate_response (some 404) = .error (.failJson "Invalid API URL") ∧
    validate_response (some 400)
      = .error (.failJson "The API call could not be completed successfully") ∧
    validate_response none = .error (.failJson "Unable to reach API server") ∧
    (∀ (cfg : Config) (env : Env), cfg.device_id = none →
      env.tableStatus = some 401 →
      (runMain cfg env).2 = .error (.failJson "Invalid API credentials")) ∧
    (∀ (cfg : Config) (env : Env), cfg.device_id = none →
      env.tableStatus = some 404 →
      (runMain cfg env).2 = .error (.failJson "Invalid API URL")) ∧
    (∀ (cfg : Config) (env : Env), cfg.device_id = none →
      env.tableStatus = none →
      (runMain cfg env).2 = .error (.failJson "Unable to reach API server")) := by
  refine ⟨rfl, rfl, rfl, rfl, ?_, ?_, ?_⟩ <;>
  · intro cfg env h1 h2
    simp [runMain, resolvePhase, requireOk200, validate_response, h1, h2]

/-- Witness for the hypothesis-bearing conjuncts of status_error_mapping. -/
theorem status_error_mapping_witness :
    (runMain ⟨none, some "web01", .present, true, none, none, false⟩
      ⟨some 401, [], some 200, [], some 200, .elem "prtg" [] [], some 200, "",
       some 200, some 200⟩).2 = .error (.failJson "Invalid API credentials") :=
  status_error_mapping.2.2.2.2.1
    ⟨none, some "web01", .present, true, none, none, false⟩
    ⟨some 401, [], some 200, [], some 200, .elem "prtg" [] [], some 200, "",
     some 200, some 200⟩ rfl rfl

/-- C10: validate_response classifies 302 as non-fatal, but every call site
demands exactly 200, so a 302 on any endpoint still fails the run with the
call site's failure message. -/
theorem status_302_call_sites :
    validate_response (some 302) = .ok 302 ∧
    (∀ msg : String, requireOk200 (some 302) msg = .error (.failJson msg)) ∧
    (∀ (cfg : Config) (env : Env), cfg.device_id = none →
      env.tableStatus = some 302 →
      (runMain cfg env).2 = .error (.failJson "API request failed")) ∧
    (∀ (did : Nat) (cfg : Config) (env : Env), cfg.device_id = some did →
      env.tableByIdStatus = some 302 →
      (runMain cfg env).2 = .error (.failJson "API request failed")) ∧
    (∀ (st : String) (p : Bool),
      (pause_device (some 302) st p).2 = .error (.failJson "Failed to pause device")) ∧
    (∀ (cfg : Config) (env : Env) (d : Option Device) (n : Nat),
      cfg.state = .absent → cfg.check_mode = false → env.deleteStatus = some 302 →
      n ≠ 0 →
      (reconcilePhase cfg env (.int n) d).2
        = .error (.failJson "Failed to delete device")) ∧
    (∀ (c : Nat) (env : Env), env.groupStatus = some 302 →
      (destGroupResolve c none env).2 = .error (.failJson "API request failed")) ∧
    (∀ (cfg : Config) (env : Env) (c g : Nat), cfg.dest_group = some g →
      env.dupStatus = some 302 →
      (createPath cfg env c).2 = .error (.failJson "API request failed")) := by
  refine ⟨rfl, fun msg => rfl, ?_, ?_, fun st p => rfl, ?_, ?_, ?_⟩
  · intro cfg env h1 h2
    simp [runMain, resolvePhase, requireOk200, validate_response, h1, h2]
  · intro did cfg env h1 h2
    simp [runMain, resolvePhase, requireOk200, validate_response, h1, h2]
  · intro cfg env d n h1 h2 h3 h4
    simp [reconcilePhase, PyVal.truthy, requireOk200, validate_response, h1, h2, h3, h4]
  · intro c env h
    simp [destGroupResolve, requireOk200, validate_response, h]
  · intro cfg env c g h1 h2
    simp [createPath, destGroupResolve, requireOk200, validate_response, h1, h2]

/-- Witness for the hypothesis-bearing conjuncts of status_302_call_sites. -/
theorem status_302_call_sites_witness :
    requireOk200 (some 302) "API request failed"
      = .error (.failJson "API request failed") :=
  status_302_call_sites.2.1 "API request failed"

/-- The configuration of the end-to-end create scenario. -/
def createCfg : Config :=
  ⟨none, some "newhost", .present, true, some 1234, some 5678, false⟩

/-- A healthy remote for the create scenario whose duplicateobject response
redirects to a URL carrying id%3D4321. -/
def createEnv : Env :=
  ⟨some 200, [], some 200, [], some 200, .elem "prtg" [] [], some 200,
   "https://prtg.example.com/device.htm?id%3D4321&tabid=1", some 200, some 200⟩

/-- The same remote whose duplicateobject response URL lacks the id marker. -/
def createEnvNoId : Env :=
  ⟨some 200, [], some 200, [], some 200, .elem "prtg" [] [], some 200,
   "https://prtg.example.com/error.htm?errormsg=denied", some 200, some 200⟩

/-- C7: with clone_from 1234, device_name newhost, dest_group 5678 and
enabled, the run issues duplicateobject with exactly those parameters,
parses 4321 out of the id%3D marker of the returned URL, unpauses device
4321 with action flag 1, and reports changed; with the marker absent it
fails with the parse message. -/
theorem create_flow_end_to_end :
    runMain createCfg createEnv =
      ([.tableAll, .duplicate "1234" "newhost" "newhost" "5678",
        .pause "4321" "paused by ansible" 1], .ok true) ∧
    extractId "https://prtg.example.com/device.htm?id%3D4321&tabid=1"
      = some "4321" ∧
    (runMain createCfg createEnvNoId).2
      = .error (.failJson "Unable to parse new device ID from return request") := by
  refine ⟨by decide, by decide, by decide⟩

/-- The remote answers of the explicit-device_id scenario: the listing
filtered by id 42 returns exactly that device. -/
def byIdEnv : Env :=
  ⟨some 200, [], some 200, [⟨42, "Web01", "10.0.0.5", -1⟩], some 200,
   .elem "prtg" [] [], some 200, "", some 200, some 200⟩

/-- The same remote with the filtered listing empty. -/
def byIdEnvEmpty : Env :=
  ⟨some 200, [], some 200, [], some 200,
   .elem "prtg" [] [], some 200, "", some 200, some 200⟩

/-- C4 (defect): with an explicit device_id and a non-empty filtered
listing, the script evaluates the unbound loop variable dev and dies with a
NameError instead of using the freshly fetched record; and with an empty
filtered listing the still-truthy device_id parameter makes the absent
branch delete the device the fresh fetch said does not exist, and makes the
present branch die with the same NameError. -/
theorem device_id_resolution_name_error :
    (runMain ⟨some 42, none, .present, true, none, none, false⟩ byIdEnv).2
      = .error (.exc .nameError) ∧
    (runMain ⟨some 42, none, .absent, true, none, none, false⟩ byIdEnv).2
      = .error (.exc .nameError) ∧
    runMain ⟨some 42, none, .absent, true, none, none, false⟩ byIdEnvEmpty
      = ([.tableById "42", .deleteObj "42" "1"], .ok true) ∧
    (runMain ⟨some 42, none, .present, true, none, none, false⟩ byIdEnvEmpty).2
      = .error (.exc .nameError) := by
  refine ⟨by decide, by decide, by decide, by decide⟩

/-- An XML answer whose second child is not a result element and has no
children of its own. -/
def xmlNoResult : Xml :=
  .elem "prtg" [] [.elem "version" [] [], .elem "foo" [] []]

/-- Counterexample to C9 as stated: at a root whose second child has no
children (tag foo, not result), the lookup terminates with the guarded
fail_json message, not with an IndexError or KeyError. -/
theorem group_xml_claim_counterexample :
    parentGroupExtract xmlNoResult
      = .error (.failJson "Unable to find parent group of clone_from") ∧
    parentGroupExtract xmlNoResult ≠ .error (.exc .indexError) ∧
    parentGroupExtract xmlNoResult ≠ .error (.exc .keyError) := by
  refine ⟨rfl, by decide, by decide⟩

/-- C9 (amended): the parent-group lookup raises IndexError when the root
has fewer than two children, and, when the second child is a result
element, IndexError when that element has no children and KeyError when its
first child lacks a thisid attribute; the guarded fail_json branch is
reachable exactly when a second child exists whose tag is not result. -/
theorem group_xml_exceptions :
    (∀ xml : Xml, xml.children.length < 2 →
      parentGroupExtract xml = .error (.exc .indexError)) ∧
    (∀ (xml c : Xml), xml.children[1]? = some c → c.tag = "result" →
      c.children = [] →
      parentGroupExtract xml = .error (.exc .indexError)) ∧
    (∀ (xml c cc : Xml), xml.children[1]? = some c → c.tag = "result" →
      c.children[0]? = some cc → cc.attrib.lookup "thisid" = none →
      parentGroupExtract xml = .error (.exc .keyError)) ∧
    (∀ (xml : Xml) (m : String),
      parentGroupExtract xml = .error (.failJson m) →
      ∃ c : Xml, xml.children[1]? = some c ∧ c.tag ≠ "result") := by
  refine ⟨?_, ?_, ?_, ?_⟩
  · intro xml h
    have hg : xml.children[1]? = none := by
      rw [List.getElem?_eq_none_iff]
      omega
    simp [parentGroupExtract, hg]
  · intro xml c hg ht hc
    simp [parentGroupExtract, hg, ht, hc]
  · intro xml c cc hg ht hc hl
    simp [parentGroupExtract, hg, ht, hc, hl]
  · intro xml m h
    cases hg : xml.children[1]? with
    | none => simp [parentGroupExtract, hg] at h
    | some c =>
      refine ⟨c, rfl, ?_⟩
      intro ht
      cases hc : c.children[0]? with
      | none => simp [parentGroupExtract, hg, ht, hc] at h
      | some cc =>
        cases hl : cc.attrib.lookup "thisid" with
        | none => simp [parentGroupExtract, hg, ht, hc, hl] at h
        | some v => simp [parentGroupExtract, hg, ht, hc, hl] at h

/-- Witness for the hypothesis-bearing conjuncts of group_xml_exceptions. -/
theorem group_xml_exceptions_witness :
    parentGroupExtract (.elem "prtg" [] []) = .error (.exc .indexError) :=
  group_xml_exceptions.1 (.elem "prtg" [] []) (by decide)

/-- C8: for every desired state, enabled flag and initial observed shape of
the target, running the module twice in direct succession against the
remote state its own actions produced reports the transition table's
changed flag on the first run and changed false on the second. -/
theorem idempotence_two_runs (s : PState) (e : Bool) (obs : ObsCase) :
    twoRunChanged s e obs = .ok (tableFirstChanged s e obs, false) := by
  cases s <;> cases e <;> cases obs <;> decide

/-- Closed instance of idempotence_two_runs at the create row. -/
theorem idempotence_two_runs_witness :
    twoRunChanged .present true .missing = .ok (true, false) :=
  idempotence_two_runs .present true .missing

/-- C6: desired state present, device not resolved, clone_from absent: the
run fails with the precondition message and has issued no mutating call. -/
theorem create_without_clone_from (cfg : Config) (env : Env) (name : String)
    (h1 : cfg.device_id = none) (h2 : cfg.device_name = some name)
    (h3 : cfg.state = .present) (h4 : cfg.clone_from = none)
    (h5 : env.tableStatus = some 200)
    (h6 : findDevice env.tableDevices name = none) :
    (runMain cfg env).2 = .error (.failJson
      "Unable to create new device because: clone_from parameter not specified") ∧
    mutCalls (runMain cfg env).1 = [] := by
  have hres : resolvePhase cfg env = ([.tableAll], .ok (.noneV, none)) := by
    simp [resolvePhase, h1, h2, h5, h6, requireOk200, validate_response]
  have hrec : reconcilePhase cfg env .noneV none
      = ([], .error (.failJson
        "Unable to create new device because: clone_from parameter not specified")) := by
    simp [reconcilePhase, h3, h4, PyVal.truthy]
  constructor
  · simp [runMain, hres, hrec]
  · simp [runMain, hres, hrec, mutCalls, ApiCall.mutating]

/-- Witness for create_without_clone_from. -/
theorem create_without_clone_from_witness :
    (runMain ⟨none, some "web01", .present, true, none, none, false⟩
      byIdEnvEmpty).2 = .error (.failJson
      "Unable to create new device because: clone_from parameter not specified") :=
  (create_without_clone_from ⟨none, some "web01", .present, true, none, none, false⟩
    byIdEnvEmpty "web01" rfl rfl rfl rfl rfl (by decide)).1

/-- The destination-group lookup makes no mutating call. -/
theorem destGroupResolve_calls_mutfree (c : Nat) (dgo : Option Nat) (env : Env) :
    (destGroupResolve c dgo env).1.filter ApiCall.mutating = [] := by
  cases dgo <;> simp [destGroupResolve, ApiCall.mutating]

/-- C1: for every desired state, resolution outcome, enabled flag and
observed pause status, the reconciler issues exactly the mutating calls of
the transition table row (create-by-clone with optional unpause, unpause,
pause, delete, or none) and reports the row's changed flag: true for the
four acting rows, false for the two no-op rows. -/
theorem reconciler_transition_table :
    (∀ (cfg : Config) (env : Env) (c : Nat) (dg nid : String),
      cfg.state = .present → cfg.check_mode = false →
      cfg.clone_from = some c →
      (destGroupResolve c cfg.dest_group env).2 = .ok dg →
      env.dupStatus = some 200 →
      extractId env.dupUrl = some nid →
      env.pauseStatus = some 200 →
      mutCalls (reconcilePhase cfg env .noneV none).1 =
        .duplicate (toString c) (cfg.device_name.getD "") (cfg.device_name.getD "") dg
          :: (if cfg.enabled then [.pause nid "paused by ansible" 1] else []) ∧
      (reconcilePhase cfg env .noneV none).2 = .ok true) ∧
    (∀ (cfg : Config) (env : Env) (d : Device),
      cfg.state = .present → cfg.check_mode = false → cfg.enabled = true →
      d.objid ≠ 0 → d.active_raw = 0 → env.pauseStatus = some 200 →
      reconcilePhase cfg env (.int d.objid) (some d)
        = ([.pause (toString d.objid) "paused by ansible" 1], .ok true)) ∧
    (∀ (cfg : Config) (env : Env) (d : Device),
      cfg.state = .present → cfg.check_mode = false → cfg.enabled = false →
      d.objid ≠ 0 → d.active_raw = -1 → env.pauseStatus = some 200 →
      reconcilePhase cfg env (.int d.objid) (some d)
        = ([.pause (toString d.objid) "paused by ansible" 0], .ok true)) ∧
    (∀ (cfg : Config) (env : Env) (d : Device),
      cfg.state = .present → d.objid ≠ 0 →
      (cfg.enabled = true ∧ d.active_raw = -1) ∨
        (cfg.enabled = false ∧ d.active_raw = 0) →
      reconcilePhase cfg env (.int d.objid) (some d) = ([], .ok false)) ∧
    (∀ (cfg : Config) (env : Env) (d : Device) (dv : Option Device),
      cfg.state = .absent → cfg.check_mode = false → d.objid ≠ 0 →
      env.deleteStatus = some 200 →
      reconcilePhase cfg env (.int d.objid) dv
        = ([.deleteObj (toString d.objid) "1"], .ok true)) ∧
    (∀ (cfg : Config) (env : Env),
      cfg.state = .absent →
      reconcilePhase cfg env .noneV none = ([], .ok false)) := by
  refine ⟨?_, ?_, ?_, ?_, ?_, ?_⟩
  · intro cfg env c dg nid h1 h2 h3 h4 h5 h6 h7
    have hrc : reconcilePhase cfg env .noneV none = createPath cfg env c := by
      simp [reconcilePhase, h1, h2, h3, PyVal.truthy]
    rw [hrc]
    cases he : cfg.enabled <;>
      simp [createPath, h4, h5, h6, h7, he, pause_device, requireOk200,
        validate_response, mutCalls, List.filter_append,
        destGroupResolve_calls_mutfree, ApiCall.mutating]
  · intro cfg env d h1 h2 h3 h4 h5 h6
    have ht : (PyVal.int d.objid).truthy = true := by
      simp [PyVal.truthy, h4]
    simp [reconcilePhase, h1, h2, h3, h5, h6, ht, PyVal.toParamString,
      pause_device, requireOk200, validate_response]
  · intro cfg env d h1 h2 h3 h4 h5 h6
    have ht : (PyVal.int d.objid).truthy = true := by
      simp [PyVal.truthy, h4]
    simp [reconcilePhase, h1, h2, h3, h5, h6, ht, PyVal.toParamString,
      pause_device, requireOk200, validate_response]
  · intro cfg env d h1 h2 h3
    have ht : (PyVal.int d.objid).truthy = true := by
      simp [PyVal.truthy, h2]
    rcases h3 with ⟨he, ha⟩ | ⟨he, ha⟩ <;>
      simp [reconcilePhase, h1, he, ha, ht]
  · intro cfg env d dv h1 h2 h3 h4
    have ht : (PyVal.int d.objid).truthy = true := by
      simp [PyVal.truthy, h3]
    simp [reconcilePhase, h1, h2, h4, ht, PyVal.toParamString,
      requireOk200, validate_response]
  · intro cfg env h1
    simp [reconcilePhase, h1, PyVal.truthy]

/-- Witness instantiating all six rows of reconciler_transition_table. -/
theorem reconciler_transition_table_witness :
    (mutCalls (reconcilePhase createCfg createEnv .noneV none).1
      = [.duplicate "1234" "newhost" "newhost" "5678",
         .pause "4321" "paused by ansible" 1] ∧
     (reconcilePhase createCfg createEnv .noneV none).2 = .ok true) ∧
    reconcilePhase ⟨none, some "w", .present, true, some 1, none, false⟩ createEnv
      (.int 7) (some ⟨7, "w", "h", 0⟩)
      = ([.pause "7" "paused by ansible" 1], .ok true) ∧
    reconcilePhase ⟨none, some "w", .present, false, some 1, none, false⟩ createEnv
      (.int 7) (some ⟨7, "w", "h", -1⟩)
      = ([.pause "7" "paused by ansible" 0], .ok true) ∧
    reconcilePhase ⟨none, some "w", .present, true, some 1, none, false⟩ createEnv
      (.int 7) (some ⟨7, "w", "h", -1⟩) = ([], .ok false) ∧
    reconcilePhase ⟨none, some "w", .absent, true, some 1, none, false⟩ createEnv
      (.int 7) none = ([.deleteObj "7" "1"], .ok true) ∧
    reconcilePhase ⟨none, some "w", .absent, true, some 1, none, false⟩ createEnv
      .noneV none = ([], .ok false) := by
  refine ⟨?_, ?_, ?_, ?_, ?_, ?_⟩
  · exact reconciler_transition_table.1 createCfg createEnv 1234 "5678" "4321"
      rfl rfl rfl rfl rfl (by decide) rfl
  · exact reconciler_transition_table.2.1
      ⟨none, some "w", .present, true, some 1, none, false⟩ createEnv
      ⟨7, "w", "h", 0⟩ rfl rfl rfl (by decide) rfl rfl
  · exact reconciler_transition_table.2.2.1
      ⟨none, some "w", .present, false, some 1, none, false⟩ createEnv
      ⟨7, "w", "h", -1⟩ rfl rfl rfl (by decide) rfl rfl
  · exact reconciler_transition_table.2.2.2.1
      ⟨none, some "w", .present, true, some 1, none, false⟩ createEnv
      ⟨7, "w", "h", -1⟩ rfl (by decide) (Or.inl ⟨rfl, rfl⟩)
  · exact reconciler_transition_table.2.2.2.2.1
      ⟨none, some "w", .absent, true, some 1, none, false⟩ createEnv
      ⟨7, "w", "h", -1⟩ none rfl rfl (by decide) rfl
  · exact reconciler_transition_table.2.2.2.2.2
      ⟨none, some "w", .absent, true, some 1, none, false⟩ createEnv rfl

theorem setCheck_state (cfg : Config) (b : Bool) : (setCheck cfg b).state = cfg.state := rfl

theorem setCheck_check (cfg : Config) (b : Bool) : (setCheck cfg b).check_mode = b := rfl

/-- The resolution phase never reads the check-mode flag. -/
theorem resolvePhase_setCheck (cfg : Config) (b : Bool) (env : Env) :
    resolvePhase (setCheck cfg b) env = resolvePhase cfg env := rfl

/-- A successful pause_device always reports changed. -/
theorem pause_device_ok (st : Option Int) (idStr : String) (p c : Bool)
    (h : (pause_device st idStr p).2 = .ok c) : c = true := by
  cases hr : requireOk200 st "Failed to pause device" with
  | error e => simp [pause_device, hr] at h
  | ok u => simp [pause_device, hr] at h; exact h

/-- A successful create path always reports changed. -/
theorem createPath_ok (cfg : Config) (env : Env) (cl : Nat) (c : Bool)
    (h : (createPath cfg env cl).2 = .ok c) : c = true := by
  cases hg : (destGroupResolve cl cfg.dest_group env).2 with
  | error e => simp [createPath, hg] at h
  | ok dg =>
    cases hd : requireOk200 env.dupStatus "API request failed" with
    | error e => simp [createPath, hg, hd] at h
    | ok u =>
      cases hx : extractId env.dupUrl with
      | none => simp [createPath, hg, hd, hx] at h
      | some nid =>
        cases he : cfg.enabled with
        | false => simp [createPath, hg, hd, hx, he] at h; exact h
        | true =>
          cases hp : (pause_device env.pauseStatus nid false).2 with
          | error e2 => simp [createPath, hg, hd, hx, he, hp] at h
          | ok b => simp [createPath, hg, hd, hx, he, hp] at h; exact h

/-- When the real reconciliation succeeds with changed flag c, the same
reconciliation in check mode issues no call and reports the same c. -/
theorem reconcilePhase_check (cfg : Config) (env : Env) (did : PyVal)
    (dev : Option Device) (c : Bool)
    (h : (reconcilePhase cfg env did dev).2 = .ok c) :
    reconcilePhase (setCheck cfg true) env did dev = ([], .ok c) := by
  cases hs : cfg.state with
  | present =>
    cases htr : did.truthy with
    | false =>
      cases hc : cfg.clone_from with
      | none => simp [reconcilePhase, hs, htr, hc] at h
      | some cl =>
        have hct : c = true := by
          cases hm : cfg.check_mode with
          | true => simp [reconcilePhase, hs, htr, hc, hm] at h; exact h
          | false =>
            simp [reconcilePhase, hs, htr, hc, hm] at h
            exact createPath_ok cfg env cl c h
        subst hct
        simp [reconcilePhase, setCheck_state, setCheck_check, setCheck, hs, htr, hc]
    | true =>
      cases dev with
      | none => simp [reconcilePhase, hs, htr] at h
      | some d =>
        cases hen : cfg.enabled with
        | true =>
          by_cases ha0 : d.active_raw = 0
          · have hct : c = true := by
              cases hm : cfg.check_mode with
              | true => simp [reconcilePhase, hs, htr, hen, ha0, hm] at h; exact h
              | false =>
                simp [reconcilePhase, hs, htr, hen, ha0, hm] at h
                exact pause_device_ok env.pauseStatus did.toParamString false c h
            subst hct
            simp [reconcilePhase, setCheck, hs, htr, hen, ha0]
          · have hcf : c = false := by
              simp [reconcilePhase, hs, htr, hen, ha0] at h
              exact h
            subst hcf
            simp [reconcilePhase, setCheck, hs, htr, hen, ha0]
        | false =>
          by_cases ham : d.active_raw = -1
          · have hct : c = true := by
              cases hm : cfg.check_mode with
              | true => simp [reconcilePhase, hs, htr, hen, ham, hm] at h; exact h
              | false =>
                simp [reconcilePhase, hs, htr, hen, ham, hm] at h
                exact pause_device_ok env.pauseStatus did.toParamString true c h
            subst hct
            simp [reconcilePhase, setCheck, hs, htr, hen, ham]
          · have hcf : c = false := by
              simp [reconcilePhase, hs, htr, hen, ham] at h
              exact h
            subst hcf
            simp [reconcilePhase, setCheck, hs, htr, hen, ham]
  | absent =>
    cases htr : did.truthy with
    | false =>
      have hcf : c = false := by
        simp [reconcilePhase, hs, htr] at h
        exact h
      subst hcf
      simp [reconcilePhase, setCheck, hs, htr]
    | true =>
      have hct : c = true := by
        cases hm : cfg.check_mode with
        | true => simp [reconcilePhase, hs, htr, hm] at h; exact h
        | false =>
          cases hd : requireOk200 env.deleteStatus "Failed to delete device" with
          | error e => simp [reconcilePhase, hs, htr, hm, hd] at h
          | ok u => simp [reconcilePhase, hs, htr, hm, hd] at h; exact h
      subst hct
      simp [reconcilePhase, setCheck, hs, htr]

/-- The resolution phase only reads the listing endpoints. -/
theorem resolvePhase_calls_mutfree (cfg : Config) (env : Env) :
    (resolvePhase cfg env).1.filter ApiCall.mutating = [] := by
  cases hid : cfg.device_id <;> simp [resolvePhase, hid, ApiCall.mutating]

/-- In check mode the reconciliation phase issues no call at all. -/
theorem reconcilePhase_check_calls (cfg : Config) (env : Env) (did : PyVal)
    (dev : Option Device) (hcm : cfg.check_mode = true) :
    (reconcilePhase cfg env did dev).1 = [] := by
  unfold reconcilePhase
  repeat' split
  all_goals simp_all

/-- C2: when the real run exits with a changed value, the identical
invocation in check mode exits with the same changed value; and a run in
check mode issues no mutating API call whatever the configuration. -/
theorem check_mode_invariant :
    (∀ (cfg : Config) (env : Env) (c : Bool),
      (runMain (setCheck cfg false) env).2 = .ok c →
      (runMain (setCheck cfg true) env).2 = .ok c) ∧
    (∀ (cfg : Config) (env : Env), cfg.check_mode = true →
      mutCalls (runMain cfg env).1 = []) := by
  constructor
  · intro cfg env c h
    simp only [runMain, resolvePhase_setCheck] at h ⊢
    cases hr : (resolvePhase cfg env).2 with
    | error e => simp [hr] at h
    | ok dd =>
      simp only [hr] at h ⊢
      have h2 := reconcilePhase_check (setCheck cfg false) env dd.1 dd.2 c h
      have h3 : reconcilePhase (setCheck cfg true) env dd.1 dd.2 = ([], .ok c) := h2
      simp [h3]
  · intro cfg env hcm
    simp only [runMain]
    cases hr : (resolvePhase cfg env).2 with
    | error e => simp [hr, mutCalls, resolvePhase_calls_mutfree]
    | ok dd =>
      simp [hr, mutCalls, List.filter_append, resolvePhase_calls_mutfree,
        reconcilePhase_check_calls cfg env dd.1 dd.2 hcm]

/-- Witness for check_mode_invariant at the create configuration. -/
theorem check_mode_invariant_witness :
    (runMain (setCheck createCfg true) createEnv).2 = .ok true ∧
    mutCalls (runMain (setCheck createCfg true) createEnv).1 = [] :=
  ⟨check_mode_invariant.1 createCfg createEnv true (by decide),
   check_mode_invariant.2 (setCheck createCfg true) createEnv rfl⟩

end Prtg
